import Mathlib

/-!
Verification development for the kOS documentation post-processing pipeline
(tools/kos_doc_parser).  The Python modules postprocess.py, tag_taxonomy.py
and metadata_mappings.py are shallowly embedded as executable Lean
definitions; machine strings are Lean strings operated on through their
character lists, Optional[str] fields become Option String, and Python
truthiness (None or empty string being false) is made explicit.

Python dicts preserve insertion order, so the dedup map is embedded as an
insertion-ordered list updated in place.  Python sets have an unspecified
enumeration order (the design notes of the repository flag this); the
embedding fixes insertion order as one admissible enumeration, which is the
only place a choice has to be made.
-/

namespace KosDoc

/-- Truthiness of an optional string in Python: None and the empty string
are falsy. -/
def strTruthy : Option String → Bool
  | none => false
  | some s => s != ""

/-- Length of an optional string, 0 when absent. -/
def optLen : Option String → Nat
  | none => 0
  | some s => s.length

/-- Membership test of a character in a string, via the character list. -/
def charIn (c : Char) (s : String) : Bool := s.data.contains c

/-- Add an element to an insertion-ordered duplicate-free list if absent
(the embedding of set.add or of the append-if-missing loops). -/
def addUnique (l : List String) (a : String) : List String :=
  if l.contains a then l else l ++ [a]

/-- Union of an insertion-ordered duplicate-free list with another list,
keeping first-seen order. -/
def unionUnique (l : List String) (other : List String) : List String :=
  other.foldl addUnique l

/-- Embedding of set(xs) for a list of strings, as an insertion-ordered
duplicate-free list. -/
def dedupStrings (l : List String) : List String := unionUnique [] l

/-- Uppercasing a string character by character (ASCII, as in the data of
this repository; Char.toUpper agrees with Python str.upper on ASCII). -/
def strUpper (s : String) : String := ⟨s.data.map Char.toUpper⟩

/-- Lowercasing a string character by character (ASCII). -/
def strLower (s : String) : String := ⟨s.data.map Char.toLower⟩

/-- Tests whether the second list occurs in the first at position i. -/
def subAt (pat s : List Char) (i : Nat) : Bool :=
  (s.drop i).take pat.length == pat

/-- Substring containment, the embedding of the Python in operator on
strings. -/
def strContainsSub (s pat : String) : Bool :=
  (List.range (s.data.length + 1)).any (fun i => subAt pat.data s.data i)

/-- Tests whether s starts with pre, via character lists. -/
def strLeads (s pre : String) : Bool := s.data.take pre.data.length == pre.data

/-- Tests whether s ends with suf, via character lists. -/
def strTrails (s suf : String) : Bool :=
  s.data.drop (s.data.length - suf.data.length) == suf.data

/-- Word character for the regex word boundary, ASCII reading of backslash-w. -/
def isWordChar (c : Char) : Bool := c.isAlpha || c.isDigit || c == '_'

/-- Whether position i of the character list carries a word character
(string edges count as non-word). -/
def wordAt (s : List Char) (i : Nat) : Bool := isWordChar (s.getD i ' ')

/-- Word boundary at position i, between characters i-1 and i. -/
def boundaryAt (s : List Char) (i : Nat) : Bool :=
  (if i == 0 then false else wordAt s (i - 1)) != wordAt s i

/-- Whole-word occurrence of pat in s: the embedding of
re.search of backslash-b pat backslash-b. -/
def wholeWordMatch (pat s : List Char) : Bool :=
  (List.range (s.length + 1)).any
    (fun i => subAt pat s i && boundaryAt s i && boundaryAt s (i + pat.length))

/-- Lexicographic strict order on character lists by code point, the
Python string comparison. -/
def charListLt : List Char → List Char → Bool
  | [], [] => false
  | [], _ :: _ => true
  | _ :: _, [] => false
  | a :: as, b :: bs => if a < b then true else if b < a then false else charListLt as bs

/-- Strict order on strings by code point. -/
def strLtB (s t : String) : Bool := charListLt s.data t.data

/-- Insertion into a sorted list of strings. -/
def insertStr (a : String) : List String → List String
  | [] => [a]
  | b :: bs => if strLtB a b then a :: b :: bs else b :: insertStr a bs

/-- Insertion sort on strings, the embedding of sorted() on a set whose
elements are distinct. -/
def sortStrings : List String → List String
  | [] => []
  | a :: as => insertStr a (sortStrings as)

/-- Entry type, from models.DocEntryType. -/
inductive DocEntryType where
  | structure_
  | suffix
  | function
  | keyword
  | constant
  | command
deriving DecidableEq, Repr, BEq

/-- Access mode, from models.DocAccessMode. -/
inductive DocAccessMode where
  | none_
  | get
  | set
  | getSet
  | method
deriving DecidableEq, Repr, BEq

/-- The entry record, from models.DocEntry, with the dataclass defaults. -/
structure DocEntry where
  id : String
  name : String
  type : DocEntryType
  parent_structure : Option String := none
  return_type : Option String := none
  access : DocAccessMode := DocAccessMode.none_
  signature : Option String := none
  description : Option String := none
  snippet : Option String := none
  source_ref : Option String := none
  tags : List String := []
  aliases : List String := []
  related : List String := []
  deprecated : Bool := false
  deprecation_note : Option String := none
deriving DecidableEq, Repr

/-- Quality score, from postprocess._entry_quality_score. -/
def entry_quality_score (e : DocEntry) : Nat :=
  (if strTruthy e.description then min (optLen e.description) 200 else 0)
  + (if strTruthy e.snippet then 50 else 0)
  + (if e.tags != [] then e.tags.length * 5 else 0)
  + (if e.related != [] then e.related.length * 3 else 0)
  + (if strTruthy e.source_ref
        && charIn '#' (e.source_ref.getD "") then 10 else 0)

/-- Field merge, from postprocess._merge_entry_fields: target is mutated,
the embedding returns the updated target. -/
def merge_entry_fields (target source : DocEntry) : DocEntry :=
  let t1 := if !strTruthy target.snippet && strTruthy source.snippet then
      { target with snippet := source.snippet } else target
  let t2 := if !strTruthy t1.description && strTruthy source.description then
      { t1 with description := source.description } else t1
  let t3 := { t2 with tags := unionUnique t2.tags source.tags }
  { t3 with related := unionUnique t3.related source.related }

/-- Lookup of the entry currently kept for an id, the embedding of
entry_map.get(entry.id). -/
def findById (m : List DocEntry) (i : String) : Option DocEntry :=
  m.find? (fun x => x.id == i)

/-- In-place value update of the insertion-ordered map at a key, keeping
the position of the key. -/
def updateById (m : List DocEntry) (i : String) (v : DocEntry) : List DocEntry :=
  m.map (fun x => if x.id == i then v else x)

/-- One iteration of the loop of postprocess.deduplicate_entries. -/
def dedupStep (m : List DocEntry) (e : DocEntry) : List DocEntry :=
  match findById m e.id with
  | none => m ++ [e]
  | some existing =>
      if entry_quality_score existing < entry_quality_score e then
        updateById m e.id e
      else
        updateById m e.id (merge_entry_fields existing e)

/-- Duplicate removal, from postprocess.deduplicate_entries; the Python
dict entry_map is the insertion-ordered list and the returned value list
is the list itself. -/
def deduplicate_entries (entries : List DocEntry) : List DocEntry :=
  entries.foldl dedupStep []

/-- Shape of the identifier regexes of tag_taxonomy.TAG_PATTERNS:
startColonEnd x is the anchored pattern caret-x-(colon-or-end),
startOnly x is the anchored pattern caret-x, and endColon x is the
pattern colon-x-dollar. -/
inductive IdPat where
  | startColonEnd : String → IdPat
  | startOnly : String → IdPat
  | endColon : String → IdPat
deriving DecidableEq, Repr

/-- Semantics of re.search for the three regex shapes over a string. -/
def patMatches : IdPat → String → Bool
  | IdPat.startColonEnd x, s => strLeads s (x ++ ":") || s == x
  | IdPat.startOnly x, s => strLeads s x
  | IdPat.endColon x, s => strTrails s (":" ++ x)

/-- Pattern table, from tag_taxonomy.TAG_PATTERNS, in source order. -/
def TAG_PATTERNS : List (IdPat × List String) := [
  (IdPat.startColonEnd "VESSEL", ["vessel", "core"]),
  (IdPat.startColonEnd "SHIP", ["vessel", "core"]),
  (IdPat.startColonEnd "ORBIT", ["orbit"]),
  (IdPat.startColonEnd "BODY", ["body"]),
  (IdPat.startColonEnd "PART", ["part"]),
  (IdPat.startColonEnd "ENGINE", ["part", "control"]),
  (IdPat.startColonEnd "SENSOR", ["part", "science"]),
  (IdPat.startOnly "SCIENCE", ["science"]),
  (IdPat.startOnly "ANTENNA", ["communication", "part"]),
  (IdPat.startOnly "COMM", ["communication"]),
  (IdPat.startOnly "DOCK", ["docking", "part"]),
  (IdPat.startOnly "CREW", ["crew"]),
  (IdPat.startOnly "KERBAL", ["crew"]),
  (IdPat.startOnly "MANEUVER", ["maneuver", "orbit"]),
  (IdPat.startColonEnd "NODE", ["maneuver", "orbit"]),
  (IdPat.startColonEnd "STAGE", ["staging"]),
  (IdPat.startOnly "RESOURCE", ["resource", "fuel"]),
  (IdPat.startOnly "GUI", ["gui"]),
  (IdPat.startOnly "WIDGET", ["gui"]),
  (IdPat.startOnly "FILE", ["io"]),
  (IdPat.startOnly "VOLUME", ["io"]),
  (IdPat.startOnly "TIME", ["time"]),
  (IdPat.startOnly "TIMESTAMP", ["time"]),
  (IdPat.startColonEnd "LIST", ["collection"]),
  (IdPat.startOnly "LEXICON", ["collection"]),
  (IdPat.startOnly "ITERATOR", ["collection"]),
  (IdPat.startOnly "RANGE", ["collection"]),
  (IdPat.startOnly "QUEUE", ["collection"]),
  (IdPat.startOnly "STACK", ["collection"]),
  (IdPat.startColonEnd "VECTOR", ["vector", "math"]),
  (IdPat.startColonEnd "DIRECTION", ["direction", "navigation"]),
  (IdPat.startOnly "HEADING", ["direction", "navigation"]),
  (IdPat.startOnly "GEOPOSITION", ["position", "navigation", "body"]),
  (IdPat.startOnly "LATLNG", ["position", "navigation"]),
  (IdPat.startOnly "ATMOSPHERE", ["atmosphere", "body"]),
  (IdPat.startOnly "WAYPOINT", ["navigation"]),
  (IdPat.endColon "ALTITUDE", ["vessel", "position"]),
  (IdPat.endColon "APOAPSIS", ["orbit"]),
  (IdPat.endColon "PERIAPSIS", ["orbit"]),
  (IdPat.endColon "INCLINATION", ["orbit"]),
  (IdPat.endColon "ECCENTRICITY", ["orbit"]),
  (IdPat.endColon "SEMIMAJORAXIS", ["orbit"]),
  (IdPat.endColon "VELOCITY", ["velocity"]),
  (IdPat.endColon "POSITION", ["position"]),
  (IdPat.endColon "FACING", ["direction", "rotation"]),
  (IdPat.endColon "UP", ["direction"]),
  (IdPat.endColon "NORTH", ["direction"]),
  (IdPat.endColon "HEADING", ["direction", "navigation"]),
  (IdPat.endColon "THRUST", ["control"]),
  (IdPat.endColon "THROTTLE", ["control"]),
  (IdPat.endColon "MASS", ["vessel"]),
  (IdPat.endColon "DRYMASS", ["vessel", "fuel"]),
  (IdPat.endColon "WETMASS", ["vessel", "fuel"]),
  (IdPat.endColon "MAXTHRUST", ["control", "part"]),
  (IdPat.endColon "ISP", ["control", "fuel"]),
  (IdPat.endColon "STAGE", ["staging"]),
  (IdPat.endColon "RESOURCES", ["resource"]),
  (IdPat.endColon "FUEL", ["fuel", "resource"]),
  (IdPat.endColon "LIQUIDFUEL", ["fuel", "resource"]),
  (IdPat.endColon "OXIDIZER", ["fuel", "resource"]),
  (IdPat.endColon "MONOPROPELLANT", ["fuel", "resource"]),
  (IdPat.endColon "ELECTRICCHARGE", ["resource"]),
  (IdPat.endColon "CREW", ["crew"]),
  (IdPat.endColon "PARTS", ["part"]),
  (IdPat.endColon "ENGINES", ["part", "control"]),
  (IdPat.endColon "SENSORS", ["part", "science"]),
  (IdPat.endColon "ETA", ["time", "orbit"]),
  (IdPat.endColon "PERIOD", ["time", "orbit"]),
  (IdPat.endColon "BODY", ["body"]),
  (IdPat.endColon "SOI", ["body", "orbit"]),
  (IdPat.endColon "ATMOSPHERE", ["atmosphere", "body"]),
  (IdPat.endColon "HASATMOSPHERE", ["atmosphere", "body"]),
  (IdPat.endColon "STATUS", ["vessel"]),
  (IdPat.endColon "SITUATION", ["vessel"]),
  (IdPat.endColon "CONTROL", ["control"]),
  (IdPat.endColon "CONNECTION", ["communication"]),
  (IdPat.endColon "SIGNAL", ["communication"]),
  (IdPat.endColon "EXPERIMENTS", ["science"]),
  (IdPat.endColon "DATA", ["science"]),
  (IdPat.endColon "MAG", ["vector", "math"]),
  (IdPat.endColon "NORMALIZED", ["vector", "math"]),
  (IdPat.endColon "X", ["vector", "position"]),
  (IdPat.endColon "Y", ["vector", "position"]),
  (IdPat.endColon "Z", ["vector", "position"]),
  (IdPat.endColon "ROLL", ["rotation", "direction"]),
  (IdPat.endColon "PITCH", ["rotation", "direction"]),
  (IdPat.endColon "YAW", ["rotation", "direction"]),
  (IdPat.endColon "TARGET", ["navigation"]),
  (IdPat.endColon "HASTARGET", ["navigation"])]

/-- Keyword table, from tag_taxonomy.KEYWORD_TAG_HINTS, in source order. -/
def KEYWORD_TAG_HINTS : List (String × List String) := [
  ("THROTTLE", ["control", "core"]),
  ("STEERING", ["control", "navigation", "core"]),
  ("LOCK", ["binding", "core"]),
  ("UNLOCK", ["binding"]),
  ("SAS", ["control", "autopilot", "systems"]),
  ("RCS", ["control", "systems"]),
  ("GEAR", ["systems", "landing"]),
  ("LIGHTS", ["systems"]),
  ("BRAKES", ["systems", "landing"]),
  ("ABORT", ["systems", "staging"]),
  ("AG1", ["action", "systems"]),
  ("AG2", ["action", "systems"]),
  ("AG3", ["action", "systems"]),
  ("AG4", ["action", "systems"]),
  ("AG5", ["action", "systems"]),
  ("AG6", ["action", "systems"]),
  ("AG7", ["action", "systems"]),
  ("AG8", ["action", "systems"]),
  ("AG9", ["action", "systems"]),
  ("AG10", ["action", "systems"]),
  ("PROGRADE", ["direction", "navigation", "orbit"]),
  ("RETROGRADE", ["direction", "navigation", "orbit"]),
  ("NORMAL", ["direction", "navigation", "orbit"]),
  ("ANTINORMAL", ["direction", "navigation", "orbit"]),
  ("RADIAL", ["direction", "navigation", "orbit"]),
  ("ANTIRADIAL", ["direction", "navigation", "orbit"]),
  ("SRFPROGRADE", ["direction", "navigation", "flight"]),
  ("SRFRETROGRADE", ["direction", "navigation", "flight"]),
  ("TARGET", ["navigation"]),
  ("WAIT", ["time", "core"]),
  ("WHEN", ["trigger"]),
  ("ON", ["trigger"]),
  ("UNTIL", ["language", "core"]),
  ("IF", ["language", "core"]),
  ("ELSE", ["language", "core"]),
  ("FOR", ["language", "collection"]),
  ("FROM", ["language"]),
  ("SET", ["language", "core"]),
  ("PRINT", ["io", "core"]),
  ("LOG", ["io"]),
  ("RUN", ["language", "core"]),
  ("RUNPATH", ["language", "io"]),
  ("RUNONCEPATH", ["language", "io"]),
  ("STAGE", ["staging", "core"]),
  ("REBOOT", ["systems"]),
  ("SHUTDOWN", ["systems"]),
  ("ABS", ["math", "function"]),
  ("CEILING", ["math", "function"]),
  ("FLOOR", ["math", "function"]),
  ("ROUND", ["math", "function"]),
  ("SQRT", ["math", "function"]),
  ("LN", ["math", "function"]),
  ("LOG10", ["math", "function"]),
  ("MIN", ["math", "function"]),
  ("MAX", ["math", "function"]),
  ("MOD", ["math", "function"]),
  ("SIN", ["math", "function"]),
  ("COS", ["math", "function"]),
  ("TAN", ["math", "function"]),
  ("ARCSIN", ["math", "function"]),
  ("ARCCOS", ["math", "function"]),
  ("ARCTAN", ["math", "function"]),
  ("ARCTAN2", ["math", "function"]),
  ("RANDOM", ["math", "function"]),
  ("V", ["vector", "math", "function"]),
  ("R", ["direction", "rotation", "function"]),
  ("Q", ["rotation", "function"]),
  ("HEADING", ["direction", "navigation", "function"]),
  ("LOOKDIRUP", ["direction", "rotation", "function"]),
  ("ANGLEAXIS", ["rotation", "math", "function"]),
  ("ROTATEFROMTO", ["rotation", "math", "function"]),
  ("VCRS", ["vector", "math", "function"]),
  ("VDOT", ["vector", "math", "function"]),
  ("VANG", ["vector", "math", "function"]),
  ("VXCL", ["vector", "math", "function"])]

/-- Return-type table, from tag_taxonomy.RETURN_TYPE_TAGS, in source order. -/
def RETURN_TYPE_TAGS : List (String × List String) := [
  ("vector", ["vector"]),
  ("direction", ["direction"]),
  ("scalar", ["numeric"]),
  ("number", ["numeric"]),
  ("boolean", ["boolean"]),
  ("bool", ["boolean"]),
  ("string", ["string"]),
  ("list", ["collection"]),
  ("lexicon", ["collection"]),
  ("iterator", ["collection"]),
  ("timespan", ["time"]),
  ("timestamp", ["time"]),
  ("geoposition", ["position", "navigation"]),
  ("vessel", ["vessel"]),
  ("body", ["body"]),
  ("orbit", ["orbit"]),
  ("part", ["part"])]

/-- Description keyword groups, from the description_hints table inside
tag_taxonomy.get_tags_from_description, in source order. -/
def DESCRIPTION_HINTS : List (String × List String) := [
  ("orbit", ["orbit", "orbital", "apoapsis", "periapsis", "inclination"]),
  ("maneuver", ["maneuver", "burn", "delta-v", "deltav"]),
  ("velocity", ["velocity", "speed"]),
  ("position", ["position", "coordinate", "location"]),
  ("autopilot", ["autopilot", "auto-pilot", "cooked control"]),
  ("trajectory", ["trajectory", "path", "prediction"]),
  ("atmosphere", ["atmosphere", "atmospheric", "air"]),
  ("docking", ["dock", "docking", "port"]),
  ("landing", ["land", "landing", "touchdown", "gear"]),
  ("staging", ["stage", "staging", "decouple", "separate"])]

/-- Pattern tags for an id, from tag_taxonomy.get_tags_from_patterns. -/
def get_tags_from_patterns (entry_id : String) : List String :=
  let u := strUpper entry_id
  TAG_PATTERNS.foldl
    (fun acc pt => if patMatches pt.1 u then unionUnique acc pt.2 else acc) []

/-- Keyword tags for a name, from tag_taxonomy.get_tags_from_keyword. -/
def get_tags_from_keyword (name : String) : List String :=
  match KEYWORD_TAG_HINTS.find? (fun kv => kv.1 == strUpper name) with
  | some kv => kv.2
  | none => []

/-- Return-type tags, from tag_taxonomy.get_tags_from_return_type; the
falsy guard covers both an absent and an empty return type. -/
def get_tags_from_return_type (return_type : Option String) : List String :=
  if !strTruthy return_type then []
  else
    let low := strLower (return_type.getD "")
    RETURN_TYPE_TAGS.foldl
      (fun acc kv => if strContainsSub low kv.1 then unionUnique acc kv.2 else acc) []

/-- Description tags, from tag_taxonomy.get_tags_from_description. -/
def get_tags_from_description (description : Option String) : List String :=
  if !strTruthy description then []
  else
    let low := strLower (description.getD "")
    DESCRIPTION_HINTS.foldl
      (fun acc kv => if kv.2.any (fun k => strContainsSub low k) then addUnique acc kv.1 else acc) []

/-- Type table of tag_taxonomy.assign_tags_to_entry; the suffix type
contributes no tag. -/
def typeTags : DocEntryType → List String
  | DocEntryType.structure_ => ["structure"]
  | DocEntryType.suffix => []
  | DocEntryType.function => ["function"]
  | DocEntryType.keyword => ["keyword"]
  | DocEntryType.constant => ["constant"]
  | DocEntryType.command => ["command"]

/-- Tag union before the coverage-floor step of
tag_taxonomy.assign_tags_to_entry (the set named tags right before the
minimum-count check). -/
def preFloorTags (e : DocEntry) : List String :=
  let t0 := dedupStrings e.tags
  let t1 := unionUnique t0 (get_tags_from_patterns e.id)
  let t2 := unionUnique t1 (get_tags_from_keyword e.name)
  let t3 := unionUnique t2 (get_tags_from_return_type e.return_type)
  let t4 := unionUnique t3 (get_tags_from_description e.description)
  let t5 := unionUnique t4 (typeTags e.type)
  if e.deprecated then addUnique t5 "deprecated" else t5

/-- Parent fallback of the coverage floor: a truthy parent_structure
contributes its identifier-pattern tags. -/
def parentAugment (e : DocEntry) (t : List String) : List String :=
  match e.parent_structure with
  | some p => if p != "" then unionUnique t (get_tags_from_patterns p) else t
  | none => t

/-- Coverage-floor step of tag_taxonomy.assign_tags_to_entry: under 2
tags, first union the parent-id pattern tags, and if still under 2 add
the single tag misc. -/
def floorTags (e : DocEntry) (t : List String) : List String :=
  if t.length < 2 then
    (if (parentAugment e t).length < 2 then addUnique (parentAugment e t) "misc"
     else parentAugment e t)
  else t

/-- Tag assignment, from tag_taxonomy.assign_tags_to_entry: all source
unions, the coverage floor, then the sorted set. -/
def assign_tags_to_entry (e : DocEntry) : List String :=
  sortStrings (floorTags e (preFloorTags e))

/-- Structure-to-category table, from
metadata_mappings.STRUCTURE_CATEGORIES, in source order. -/
def STRUCTURE_CATEGORIES : List (String × String) := [
  ("VESSEL", "Vessel Properties"),
  ("SHIP", "Vessel Properties"),
  ("ORBITABLE", "Vessel Properties"),
  ("VESSELALT", "Vessel Properties"),
  ("BOUNDS", "Vessel Properties"),
  ("CREWMEMBER", "Vessel Properties"),
  ("ORBIT", "Orbital Mechanics"),
  ("ORBITETA", "Orbital Mechanics"),
  ("ORBITINFO", "Orbital Mechanics"),
  ("BODY", "Celestial Bodies"),
  ("ATMOSPHERE", "Celestial Bodies"),
  ("GEOPOSITION", "Celestial Bodies"),
  ("LATLNG", "Celestial Bodies"),
  ("WAYPOINT", "Celestial Bodies"),
  ("PART", "Parts & Modules"),
  ("PARTMODULE", "Parts & Modules"),
  ("ENGINE", "Parts & Modules"),
  ("GIMBAL", "Parts & Modules"),
  ("DECOUPLER", "Parts & Modules"),
  ("SEPARATOR", "Parts & Modules"),
  ("DOCKINGPORT", "Parts & Modules"),
  ("SENSOR", "Parts & Modules"),
  ("LAUNCHCLAMP", "Parts & Modules"),
  ("RCS", "Parts & Modules"),
  ("SOLARPANEL", "Parts & Modules"),
  ("CONSUMEDRESOURCE", "Parts & Modules"),
  ("RESOURCE", "Resources"),
  ("AGGREGATERESOURCE", "Resources"),
  ("STAGEVALUES", "Resources"),
  ("CONTROL", "Flight Control"),
  ("STEERINGMANAGER", "Flight Control"),
  ("PIDLOOP", "Flight Control"),
  ("MANEUVERNODE", "Maneuvers & Navigation"),
  ("NODE", "Maneuvers & Navigation"),
  ("DIRECTION", "Maneuvers & Navigation"),
  ("HEADING", "Maneuvers & Navigation"),
  ("VECTOR", "Math & Vectors"),
  ("SCALAR", "Math & Vectors"),
  ("CONSTANT", "Math & Vectors"),
  ("LIST", "Collections"),
  ("LEXICON", "Collections"),
  ("ITERATOR", "Collections"),
  ("RANGE", "Collections"),
  ("QUEUE", "Collections"),
  ("STACK", "Collections"),
  ("UNIQUESET", "Collections"),
  ("FILE", "I/O & Communication"),
  ("VOLUME", "I/O & Communication"),
  ("VOLUMEFILE", "I/O & Communication"),
  ("VOLUMEDIRECTORY", "I/O & Communication"),
  ("VOLUMEITEM", "I/O & Communication"),
  ("CORE", "I/O & Communication"),
  ("PROCESSOR", "I/O & Communication"),
  ("CONNECTION", "I/O & Communication"),
  ("MESSAGE", "I/O & Communication"),
  ("MESSAGEQUEUE", "I/O & Communication"),
  ("GUI", "GUI Elements"),
  ("WIDGET", "GUI Elements"),
  ("BOX", "GUI Elements"),
  ("BUTTON", "GUI Elements"),
  ("LABEL", "GUI Elements"),
  ("TEXTFIELD", "GUI Elements"),
  ("POPUPMENU", "GUI Elements"),
  ("SLIDER", "GUI Elements"),
  ("SCROLLBOX", "GUI Elements"),
  ("SPACING", "GUI Elements"),
  ("SKIN", "GUI Elements"),
  ("STYLE", "GUI Elements"),
  ("STYLESTATE", "GUI Elements"),
  ("STYLERECTSTYLE", "GUI Elements"),
  ("TIPDISPLAY", "GUI Elements"),
  ("TIME", "Time"),
  ("TIMESPAN", "Time"),
  ("TIMESTAMP", "Time"),
  ("KUNIVERSE", "Time"),
  ("SCIENCEDATA", "Science"),
  ("SCIENCEEXPERIMENT", "Science"),
  ("SCIENCEEXPERIMENTMODULE", "Science"),
  ("CAREER", "Career"),
  ("CONTRACT", "Career"),
  ("CONTRACTPARAMETER", "Career"),
  ("NOTE", "Career"),
  ("RGBA", "Colors & Styling"),
  ("HSVA", "Colors & Styling"),
  ("HIGHLIGHT", "Colors & Styling"),
  ("VECDRAW", "Colors & Styling"),
  ("VECDRAWARGS", "Colors & Styling"),
  ("ADDON", "Addons"),
  ("ADDONLIST", "Addons")]

/-- Exact lookup in the structure-to-category table. -/
def lookupCategory (key : String) : Option String :=
  (STRUCTURE_CATEGORIES.find? (fun kv => kv.1 == key)).map (fun kv => kv.2)

/-- First colon-delimited segment of a string, the embedding of
s.split(colon)[0]. -/
def firstSeg (s : String) : String := ⟨s.data.takeWhile (fun c => c != ':')⟩

/-- The structure name resolved by get_category_for_entry: the truthy
parent_structure, or else the display name. -/
def structureNameOf (e : DocEntry) : String :=
  match e.parent_structure with
  | some p => if p != "" then p else e.name
  | none => e.name

/-- Structure branch of metadata_mappings.get_category_for_entry: exact
table match of the uppercased structure name, then its first
colon-delimited segment, then the scan for a table key the uppercased id
starts with (key and colon) or equals. -/
def structure_category (e : DocEntry) : Option String :=
  match lookupCategory (strUpper (structureNameOf e)) with
  | some c => some c
  | none =>
    match lookupCategory (firstSeg (strUpper (structureNameOf e))) with
    | some c => some c
    | none =>
      (STRUCTURE_CATEGORIES.find?
        (fun kv => strLeads (strUpper e.id) (kv.1 ++ ":") || strUpper e.id == kv.1)).map
        (fun kv => kv.2)

/-- Category assignment, from metadata_mappings.get_category_for_entry.
The four type branches read TYPE_CATEGORIES, which holds exactly these
four literal values; the lookups with defaults therefore return the
table values written here. -/
def get_category_for_entry (e : DocEntry) : Option String :=
  match e.type with
  | DocEntryType.function => some "Built-in Functions"
  | DocEntryType.keyword => some "Language Keywords"
  | DocEntryType.command => some "Commands"
  | DocEntryType.constant => some "Constants"
  | _ => structure_category e

/-- Complementary-pair table, from the complementary_pairs list inside
postprocess.build_related_links, in source order. -/
def complementary_pairs : List (String × String) := [
  ("PROGRADE", "RETROGRADE"),
  ("NORMAL", "ANTINORMAL"),
  ("RADIAL", "ANTIRADIAL"),
  ("LOCK", "UNLOCK"),
  ("APOAPSIS", "PERIAPSIS"),
  ("ETA:APOAPSIS", "ETA:PERIAPSIS")]

/-- Whether some entry of the collection carries the given id, the
embedding of membership in the keys of entry_by_id. -/
def hasId (entries : List DocEntry) (i : String) : Bool :=
  entries.any (fun e => e.id == i)

/-- The dict entry_by_id of postprocess.build_related_links: keyed by id
in first-insertion order, a later duplicate overwriting the value. -/
def entryById (entries : List DocEntry) : List (String × DocEntry) :=
  entries.foldl
    (fun acc e =>
      if acc.any (fun kv => kv.1 == e.id) then
        acc.map (fun kv => if kv.1 == e.id then (kv.1, e) else kv)
      else acc ++ [(e.id, e)]) []

/-- Parent-linkage rule of postprocess.build_related_links: a truthy
parent_structure resolving to an existing id is added. -/
def parentLinkStep (entries : List DocEntry) (e : DocEntry) (acc : List String) : List String :=
  match e.parent_structure with
  | some p => if p != "" then (if hasId entries p then addUnique acc p else acc) else acc
  | none => acc

/-- One iteration of the structure-to-suffix rule of
postprocess.build_related_links: an other entry whose parent is this
structure is added while fewer than 5 ids starting with the structure id
and a colon are present. -/
def suffixLinkStep (entryId : String) (acc : List String) (other : DocEntry) : List String :=
  if other.parent_structure == some entryId && other.id != entryId then
    if (acc.filter (fun r => strLeads r (entryId ++ ":"))).length < 5 then
      addUnique acc other.id
    else acc
  else acc

/-- One iteration of the complementary-pair rule of
postprocess.build_related_links. -/
def pairStep (entries : List DocEntry) (entryId : String) (acc : List String) (p : String × String) : List String :=
  if entryId == p.1 && hasId entries p.2 then addUnique acc p.2
  else if entryId == p.2 && hasId entries p.1 then addUnique acc p.1
  else acc

/-- One iteration of the description-mention rule of
postprocess.build_related_links: a whole-word occurrence of the
uppercased name of a different entry in the uppercased description. -/
def mentionStep (entryId : String) (descU : String) (acc : List String) (kv : String × DocEntry) : List String :=
  if kv.1 == entryId then acc
  else
    let nameU := strUpper kv.2.name
    if strContainsSub descU nameU && wholeWordMatch nameU.data descU.data then
      addUnique acc kv.1
    else acc

/-- Related ids of one entry after the pre-existing set and the parent
rule of postprocess.build_related_links. -/
def briBase (entries : List DocEntry) (e : DocEntry) : List String :=
  parentLinkStep entries e (dedupStrings e.related)

/-- Related ids after the structure-to-suffix rule, which runs only for
structures. -/
def briSuffixes (entries : List DocEntry) (e : DocEntry) : List String :=
  if e.type == DocEntryType.structure_ then
    entries.foldl (suffixLinkStep e.id) (briBase entries e)
  else briBase entries e

/-- Related ids after the complementary-pair rule. -/
def briPairs (entries : List DocEntry) (e : DocEntry) : List String :=
  complementary_pairs.foldl (pairStep entries e.id) (briSuffixes entries e)

/-- The related-id set computed for one entry by
postprocess.build_related_links, before the 10-element truncation, in
insertion order: the pre-existing related ids, the parent link, the
suffix links, the complementary pairs, then the description mentions. -/
def build_related_ids (entries : List DocEntry) (e : DocEntry) : List String :=
  match e.description with
  | some d => if d != "" then
      (entryById entries).foldl (mentionStep e.id (strUpper d)) (briPairs entries e)
    else briPairs entries e
  | none => briPairs entries e

/-- Cross-reference pass, from postprocess.build_related_links: each
entry receives the first 10 elements of its computed related-id set.  No
iteration of the source loop reads the related list of another entry, so
the in-place loop is a map. -/
def build_related_links (entries : List DocEntry) : List DocEntry :=
  entries.map (fun e => { e with related := (build_related_ids entries e).take 10 })

/-- The dangling-parent warning of postprocess.validate_cross_references
for one entry, when its parent_structure is set but absent from the id
set. -/
def parentWarning (entryIds : List String) (e : DocEntry) : Option String :=
  match e.parent_structure with
  | some p => if p != "" && !entryIds.contains p then
      some ("Entry " ++ e.id ++ " references non-existent parent: " ++ p)
      else none
  | none => none

/-- Integrity pass, from postprocess.validate_cross_references: related
ids absent from the id set are silently removed, and a dangling
parent_structure only yields a warning.  The source returns an errors
list that is never appended to, embedded as the always-empty first
component. -/
def validate_cross_references (entries : List DocEntry) : List DocEntry × List String × List String :=
  let entryIds := entries.map (fun e => e.id)
  let repaired := entries.map (fun e =>
    if e.related.any (fun r => !entryIds.contains r) then
      { e with related := e.related.filter (fun r => entryIds.contains r) }
    else e)
  (repaired, [], entries.filterMap (parentWarning entryIds))

/-- Quality score as the specification words it: min(len(description),
200), plus 50 when a snippet is present, plus 5 per tag, plus 3 per
related id, plus 10 when sourceRef carries a fragment.  Presence of an
optional text field is the Python truthiness the schema uses throughout:
the field is set and non-empty. -/
def spec_score (e : DocEntry) : Nat :=
  min (optLen e.description) 200
  + (if strTruthy e.snippet then 50 else 0)
  + 5 * e.tags.length
  + 3 * e.related.length
  + (if charIn '#' (e.source_ref.getD "") then 10 else 0)

/-- Merge as the specification words it: the snippet and description of
the new entry are copied only into an empty corresponding field of the
kept entry, and its tags and related ids are appended in order, skipping
elements already present. -/
def spec_merge (kept new : DocEntry) : DocEntry :=
  { kept with
    snippet := if strTruthy kept.snippet then kept.snippet
      else if strTruthy new.snippet then new.snippet else kept.snippet,
    description := if strTruthy kept.description then kept.description
      else if strTruthy new.description then new.description else kept.description,
    tags := unionUnique kept.tags new.tags,
    related := unionUnique kept.related new.related }

/-- Count of ids of a list that start with the given structure id
followed by a colon, the count the structure-to-suffix rule checks. -/
def prefCount (sid : String) (l : List String) : Nat :=
  (l.filter (fun r => strLeads r (sid ++ ":"))).length

/-- First LOCK entry of the duplicate scenario of the specification. -/
def lockA : DocEntry :=
  { id := "LOCK", name := "LOCK", type := DocEntryType.keyword, tags := ["language"] }

/-- Second LOCK entry of the duplicate scenario of the specification. -/
def lockB : DocEntry :=
  { id := "LOCK", name := "LOCK", type := DocEntryType.keyword,
    description := some "Locks a value", tags := ["core"] }

/-- Entry matching no tag rule at all. -/
def foobarEntry : DocEntry :=
  { id := "FOOBAR", name := "FOOBAR", type := DocEntryType.suffix }

/-- A bare structure entry with six suffixes below. -/
def structS : DocEntry := { id := "S", name := "S", type := DocEntryType.structure_ }

/-- A suffix of the structure S. -/
def sfx (n : String) : DocEntry :=
  { id := "S:" ++ n, name := n, type := DocEntryType.suffix, parent_structure := some "S" }

/-- A structure with six suffixes, exercising the suffix-link cutoff. -/
def c4Entries : List DocEntry :=
  [structS, sfx "A", sfx "B", sfx "C", sfx "D", sfx "E", sfx "F"]

/-- An entry whose parent_structure is its own id. -/
def selfParent : DocEntry :=
  { id := "A", name := "A", type := DocEntryType.suffix, parent_structure := some "A" }

/-- A PROGRADE entry arriving with ten pre-existing related ids. -/
def pgFull : DocEntry :=
  { id := "PROGRADE", name := "PROGRADE", type := DocEntryType.constant,
    related := ["A0", "A1", "A2", "A3", "A4", "A5", "A6", "A7", "A8", "A9"] }

/-- A bare RETROGRADE entry. -/
def rgPlain : DocEntry :=
  { id := "RETROGRADE", name := "RETROGRADE", type := DocEntryType.constant }

/-- A structure entry with the GUI id of the classifier scenario but a
name whose first segment hits a different table key. -/
def guiVesselName : DocEntry :=
  { id := "GUI:BUTTON:CLICK", name := "VESSEL:FOO", type := DocEntryType.structure_ }

/-- The classifier scenario entry with the name equal to the id. -/
def guiPlain : DocEntry :=
  { id := "GUI:BUTTON:CLICK", name := "GUI:BUTTON:CLICK", type := DocEntryType.structure_ }

/-- A target entry with both text fields filled, used to exercise the
frame property of the merge. -/
def richEntry : DocEntry :=
  { id := "X", name := "X", type := DocEntryType.constant,
    parent_structure := some "P", return_type := some "Scalar",
    access := DocAccessMode.get, signature := some "sig",
    description := some "described", snippet := some "snip",
    source_ref := some "url#frag", aliases := ["alias"] }

/-- An entry with a dangling parent reference and a dangling related id. -/
def danglingEntry : DocEntry :=
  { id := "D", name := "D", type := DocEntryType.suffix,
    parent_structure := some "MISSING", related := ["D", "GONE"] }

/-- A bare PROGRADE entry. -/
def pgPlain : DocEntry :=
  { id := "PROGRADE", name := "PROGRADE", type := DocEntryType.constant }

/-- A related-id accumulator already holding five suffix ids of S. -/
def c4AccFull : List String := ["S:A", "S:B", "S:C", "S:D", "S:E"]

example : strContainsSub "abc#def" "#" = true := by decide
example : strContainsSub "abcdef" "#" = false := by decide
example : wholeWordMatch "LOCK".data "THE LOCK X".data = true := by decide
example : wholeWordMatch "LOCK".data "UNLOCKED".data = false := by decide
example : sortStrings ["b", "a", "c"] = ["a", "b", "c"] := by decide
example : assign_tags_to_entry { id := "FOOBAR", name := "FOOBAR", type := DocEntryType.suffix } = ["misc"] := by decide
example : assign_tags_to_entry { id := "VESSEL:ALTITUDE", name := "ALTITUDE", type := DocEntryType.suffix, parent_structure := some "VESSEL", return_type := some "Scalar" } = ["core", "numeric", "position", "vessel"] := by decide
example : entry_quality_score lockA = 5 := by decide
example : entry_quality_score lockB = 18 := by decide
example : deduplicate_entries [lockA, lockB] = [lockB] := by decide
example : assign_tags_to_entry foobarEntry = ["misc"] := by decide
example : ((build_related_links c4Entries).headD structS).related = ["S:A", "S:B", "S:C", "S:D", "S:E"] := by decide
example : (build_related_links [selfParent]).map (fun e => e.related) = [["A"]] := by decide
example : ((build_related_links [pgFull, rgPlain]).headD pgFull).related = ["A0", "A1", "A2", "A3", "A4", "A5", "A6", "A7", "A8", "A9"] := by decide
example : get_category_for_entry guiVesselName = some "Vessel Properties" := by decide
example : get_category_for_entry guiPlain = some "GUI Elements" := by decide

theorem mem_addUnique_self (l : List String) (a : String) : a ∈ addUnique l a := by
  unfold addUnique
  split
  · exact List.elem_iff.mp (by assumption)
  · simp

theorem mem_addUnique_of_mem {x : String} (l : List String) (a : String) (h : x ∈ l) :
    x ∈ addUnique l a := by
  unfold addUnique
  split
  · exact h
  · exact List.mem_append_left _ h

theorem mem_of_mem_addUnique {x : String} {l : List String} {a : String}
    (h : x ∈ addUnique l a) : x ∈ l ∨ x = a := by
  unfold addUnique at h
  split at h
  · exact Or.inl h
  · rcases List.mem_append.mp h with h' | h'
    · exact Or.inl h'
    · exact Or.inr (List.mem_singleton.mp h')

theorem mem_foldl_addUnique {x : String} :
    ∀ (other l : List String), x ∈ l → x ∈ List.foldl addUnique l other := by
  intro other
  induction other with
  | nil => intro l h; exact h
  | cons b bs ih => intro l h; exact ih _ (mem_addUnique_of_mem l b h)

theorem mem_of_foldl_addUnique {x : String} :
    ∀ {other l : List String}, x ∈ List.foldl addUnique l other → x ∈ l ∨ x ∈ other := by
  intro other
  induction other with
  | nil => intro l h; exact Or.inl h
  | cons b bs ih =>
      intro l h
      rcases ih (l := addUnique l b) h with h' | h'
      · rcases mem_of_mem_addUnique h' with hy | hy
        · exact Or.inl hy
        · exact Or.inr (by simp [hy])
      · exact Or.inr (List.mem_cons_of_mem b h')

theorem foldl_pres_notMem {β : Type} (step : List String → β → List String) (x : String) :
    ∀ (l : List β), (∀ acc b, b ∈ l → x ∉ acc → x ∉ step acc b) →
      ∀ acc, x ∉ acc → x ∉ List.foldl step acc l := by
  intro l
  induction l with
  | nil => intro _ acc h; exact h
  | cons b bs ih =>
      intro hstep acc hacc
      exact ih (fun a c hc => hstep a c (List.mem_cons_of_mem b hc)) _
        (hstep acc b (List.mem_cons_self b bs) hacc)

theorem foldl_pres_mem {β : Type} (step : List String → β → List String) (x : String)
    (hstep : ∀ acc b, x ∈ acc → x ∈ step acc b) :
    ∀ (l : List β) (acc : List String), x ∈ acc → x ∈ List.foldl step acc l := by
  intro l
  induction l with
  | nil => intro acc h; exact h
  | cons b bs ih => intro acc h; exact ih _ (hstep acc b h)

theorem score_eq (e : DocEntry) : entry_quality_score e = spec_score e := by
  unfold entry_quality_score spec_score
  have hdesc : (if strTruthy e.description then min (optLen e.description) 200 else 0)
      = min (optLen e.description) 200 := by
    cases hd : e.description with
    | none => simp [strTruthy, optLen]
    | some s =>
        by_cases hs : s = ""
        · simp [strTruthy, optLen, hs]
        · simp [strTruthy, hs]
  have htags : (if e.tags != [] then e.tags.length * 5 else 0) = 5 * e.tags.length := by
    cases ht : e.tags with
    | nil => simp
    | cons a l => simp [Nat.mul_comm]
  have hrel : (if e.related != [] then e.related.length * 3 else 0) = 3 * e.related.length := by
    cases hr : e.related with
    | nil => simp
    | cons a l => simp [Nat.mul_comm]
  have hsrc : (if strTruthy e.source_ref && charIn '#' (e.source_ref.getD "") then 10 else 0)
      = (if charIn '#' (e.source_ref.getD "") then 10 else 0) := by
    cases hs : e.source_ref with
    | none => simp [strTruthy, charIn]
    | some s =>
        by_cases he : s = ""
        · simp [strTruthy, charIn, he]
        · simp [strTruthy, he]
  rw [hdesc, htags, hrel, hsrc]

theorem merge_eq (t s : DocEntry) : merge_entry_fields t s = spec_merge t s := by
  unfold merge_entry_fields spec_merge
  cases h1 : strTruthy t.snippet <;> cases h2 : strTruthy s.snippet <;>
    cases h3 : strTruthy t.description <;> cases h4 : strTruthy s.description <;>
    simp [h1, h2, h3, h4]

/-- C1: on a repeated id, deduplicate_entries scores the kept and the new
entry exactly as the specification formula states, replaces the kept
entry if and only if the new score is strictly greater, and otherwise
merges by copying snippet and description only into empty fields of the
kept entry and appending the new tags and related ids in order without
duplicates. -/
theorem C1_dedup_repeat_follows_spec (es : List DocEntry) (e kept : DocEntry)
    (h : findById (deduplicate_entries es) e.id = some kept) :
    deduplicate_entries (es ++ [e]) =
      if spec_score kept < spec_score e
      then updateById (deduplicate_entries es) e.id e
      else updateById (deduplicate_entries es) e.id (spec_merge kept e) := by
  have hstep : ∀ (m : List DocEntry), findById m e.id = some kept →
      dedupStep m e = if entry_quality_score kept < entry_quality_score e
        then updateById m e.id e
        else updateById m e.id (merge_entry_fields kept e) := by
    intro m hm
    unfold dedupStep
    rw [hm]
  unfold deduplicate_entries at *
  rw [List.foldl_append]
  show dedupStep (List.foldl dedupStep [] es) e = _
  rw [hstep _ h, score_eq, score_eq, merge_eq]

/-- Witness for C1 at the LOCK duplicate pair. -/
theorem C1_witness :
    findById (deduplicate_entries [lockA]) lockB.id = some lockA ∧
    deduplicate_entries ([lockA] ++ [lockB]) =
      (if spec_score lockA < spec_score lockB
       then updateById (deduplicate_entries [lockA]) lockB.id lockB
       else updateById (deduplicate_entries [lockA]) lockB.id (spec_merge lockA lockB)) :=
  ⟨by decide, C1_dedup_repeat_follows_spec [lockA] lockB lockA (by decide)⟩

theorem dedupStep_none {m : List DocEntry} {e : DocEntry}
    (h : findById m e.id = none) : dedupStep m e = m ++ [e] := by
  unfold dedupStep
  rw [h]

theorem dedupStep_some {m : List DocEntry} {e kept : DocEntry}
    (h : findById m e.id = some kept) :
    dedupStep m e = if entry_quality_score kept < entry_quality_score e
      then updateById m e.id e
      else updateById m e.id (merge_entry_fields kept e) := by
  unfold dedupStep
  rw [h]

theorem updateById_ids (m : List DocEntry) (i : String) (v : DocEntry) (hv : v.id = i) :
    (updateById m i v).map (fun x => x.id) = m.map (fun x => x.id) := by
  induction m with
  | nil => rfl
  | cons a m ih =>
      unfold updateById at *
      simp only [List.map_cons, List.map_map] at *
      have hhead : (if (a.id == i) = true then v else a).id = a.id := by
        split
        · next hbeq => rw [hv, eq_of_beq hbeq]
        · rfl
      rw [hhead, ih]

theorem merge_id (t s : DocEntry) : (merge_entry_fields t s).id = t.id := by
  rw [merge_eq]
  rfl

theorem findById_none_notMem {m : List DocEntry} {i : String}
    (h : findById m i = none) : i ∉ m.map (fun x => x.id) := by
  intro hmem
  rcases List.mem_map.mp hmem with ⟨x, hx, hxid⟩
  have := List.find?_eq_none.mp h x hx
  simp [hxid] at this

theorem dedupStep_ids_nodup {m : List DocEntry} (e : DocEntry)
    (h : (m.map (fun x => x.id)).Nodup) :
    ((dedupStep m e).map (fun x => x.id)).Nodup := by
  cases hf : findById m e.id with
  | none =>
      rw [dedupStep_none hf]
      simp only [List.map_append, List.map_cons, List.map_nil]
      rw [List.nodup_append]
      refine ⟨h, List.nodup_singleton _, ?_⟩
      intro a ha hb
      have : a = e.id := by simpa using hb
      exact findById_none_notMem hf (this ▸ ha)
  | some existing =>
      have hid : existing.id = e.id := by
        have := List.find?_some hf
        exact eq_of_beq this
      rw [dedupStep_some hf]
      split
      · rw [updateById_ids _ _ _ rfl]; exact h
      · rw [updateById_ids _ _ _ (by rw [merge_id]; exact hid)]; exact h

theorem dedup_fold_ids_nodup :
    ∀ (es acc : List DocEntry), ((acc.map (fun x => x.id)).Nodup) →
      ((List.foldl dedupStep acc es).map (fun x => x.id)).Nodup := by
  intro es
  induction es with
  | nil => intro acc h; exact h
  | cons e es ih => intro acc h; exact ih _ (dedupStep_ids_nodup e h)

theorem dedup_ids_nodup (es : List DocEntry) :
    ((deduplicate_entries es).map (fun x => x.id)).Nodup :=
  dedup_fold_ids_nodup es [] (by simp)

theorem dedup_fold_fresh :
    ∀ (xs acc : List DocEntry),
      ((acc.map (fun x => x.id)) ++ xs.map (fun x => x.id)).Nodup →
      List.foldl dedupStep acc xs = acc ++ xs := by
  intro xs
  induction xs with
  | nil => intro acc _; simp
  | cons x xs ih =>
      intro acc h
      have hsplit := List.nodup_append.mp (by simpa using h)
      have hnotin : x.id ∉ acc.map (fun y => y.id) := by
        intro hmem
        exact hsplit.2.2 hmem (List.mem_cons_self _ _)
      have hx : findById acc x.id = none := by
        unfold findById
        rw [List.find?_eq_none]
        intro y hy hbeq
        exact hnotin (List.mem_map.mpr ⟨y, hy, eq_of_beq hbeq⟩)
      rw [List.foldl_cons, dedupStep_none hx, ih (acc ++ [x]) (by simpa using h)]
      simp

/-- C7: deduplication is idempotent; applied to its own output it returns
the same list of entries with the same field values in the same order. -/
theorem C7_dedup_idempotent (es : List DocEntry) :
    deduplicate_entries (deduplicate_entries es) = deduplicate_entries es := by
  have h := dedup_ids_nodup es
  have := dedup_fold_fresh (deduplicate_entries es) [] (by simpa using h)
  simpa [deduplicate_entries] using this

/-- C10: the merge path touches at most snippet, description, tags and
related; every other field of the kept entry is unchanged, and a
non-empty snippet or description of the kept entry is never overwritten. -/
theorem C10_merge_frame (t s : DocEntry) :
    (merge_entry_fields t s).id = t.id ∧
    (merge_entry_fields t s).name = t.name ∧
    (merge_entry_fields t s).type = t.type ∧
    (merge_entry_fields t s).parent_structure = t.parent_structure ∧
    (merge_entry_fields t s).return_type = t.return_type ∧
    (merge_entry_fields t s).access = t.access ∧
    (merge_entry_fields t s).signature = t.signature ∧
    (merge_entry_fields t s).source_ref = t.source_ref ∧
    (merge_entry_fields t s).aliases = t.aliases ∧
    (merge_entry_fields t s).deprecated = t.deprecated ∧
    (merge_entry_fields t s).deprecation_note = t.deprecation_note ∧
    (strTruthy t.snippet = true → (merge_entry_fields t s).snippet = t.snippet) ∧
    (strTruthy t.description = true → (merge_entry_fields t s).description = t.description) := by
  rw [merge_eq]
  unfold spec_merge
  refine ⟨rfl, rfl, rfl, rfl, rfl, rfl, rfl, rfl, rfl, rfl, rfl, ?_, ?_⟩
  · intro h; simp [h]
  · intro h; simp [h]

/-- Witness for C10 at a fully populated kept entry. -/
theorem C10_witness :
    (merge_entry_fields richEntry lockB).snippet = richEntry.snippet ∧
    (merge_entry_fields richEntry lockB).description = richEntry.description ∧
    (merge_entry_fields richEntry lockB).id = richEntry.id :=
  ⟨(C10_merge_frame richEntry lockB).2.2.2.2.2.2.2.2.2.2.2.1 (by decide),
   (C10_merge_frame richEntry lockB).2.2.2.2.2.2.2.2.2.2.2.2 (by decide),
   (C10_merge_frame richEntry lockB).1⟩

/-- C8: the integrity pass leaves only related ids that exist in the
collection, repairs silently (the error list stays empty and warnings
arise only from parents), and warns about a dangling parent_structure
without changing the field. -/
theorem C8_cross_reference_integrity (es : List DocEntry) :
    (∀ e ∈ (validate_cross_references es).1, ∀ r ∈ e.related, r ∈ es.map (fun x => x.id)) ∧
    ((validate_cross_references es).1.map (fun e => e.parent_structure)
        = es.map (fun e => e.parent_structure)) ∧
    ((validate_cross_references es).2.1 = []) ∧
    ((validate_cross_references es).2.2 = [] ↔
      ∀ e ∈ es, ∀ p, e.parent_structure = some p → p = "" ∨ p ∈ es.map (fun x => x.id)) := by
  refine ⟨?_, ?_, rfl, ?_⟩
  · intro e he r hr
    unfold validate_cross_references at he
    simp only [List.mem_map] at he
    rcases he with ⟨a, ha, hae⟩
    have hcont : (es.map (fun x => x.id)).contains r = true := by
      by_cases hguard : (a.related.any (fun r => !(es.map (fun x => x.id)).contains r)) = true
      · rw [if_pos hguard] at hae
        rw [← hae] at hr
        simp only [List.mem_filter] at hr
        exact hr.2
      · rw [if_neg hguard] at hae
        rw [← hae] at hr
        have := List.any_eq_false.mp (Bool.not_eq_true _ ▸ hguard) r hr
        simpa using this
    exact List.elem_iff.mp hcont
  · unfold validate_cross_references
    simp only [List.map_map]
    apply List.map_congr_left
    intro a _
    simp only [Function.comp]
    split <;> rfl
  · unfold validate_cross_references
    simp only
    rw [List.filterMap_eq_nil_iff]
    constructor
    · intro hall e he p hp
      have hthis := hall e he
      unfold parentWarning at hthis
      rw [hp] at hthis
      by_cases hpe : p = ""
      · exact Or.inl hpe
      · right
        by_cases hc : (es.map (fun x => x.id)).contains p = true
        · exact List.elem_iff.mp hc
        · exfalso
          have hcf : ((es.map (fun x => x.id)).contains p) = false :=
            Bool.eq_false_iff.mpr hc
          have hcond : (p != "" && !(es.map (fun x => x.id)).contains p) = true := by
            rw [hcf]
            simp [hpe]
          have hthis2 : (if (p != "" && !(es.map (fun x => x.id)).contains p) = true
              then some ("Entry " ++ e.id ++ " references non-existent parent: " ++ p)
              else none) = none := hthis
          rw [if_pos hcond] at hthis2
          exact Option.some_ne_none _ hthis2
    · intro hall e he
      unfold parentWarning
      cases hp : e.parent_structure with
      | none => rfl
      | some p =>
          rcases hall e he p hp with hpe | hpm
          · simp [hpe]
          · have hct : (es.map (fun e => e.id)).contains p = true := List.elem_iff.mpr hpm
            have hcond : (p != "" && !(es.map (fun e => e.id)).contains p) = false := by
              rw [hct]
              simp
            have hgoal : (if (p != "" && !(es.map (fun e => e.id)).contains p) = true
                then some ("Entry " ++ e.id ++ " references non-existent parent: " ++ p)
                else none) = (none : Option String) := by
              rw [hcond]
              simp
            exact hgoal

/-- Witness for C8 at a one-entry collection with a dangling related id
and a dangling parent. -/
theorem C8_witness :
    (∀ e ∈ (validate_cross_references [danglingEntry]).1, ∀ r ∈ e.related,
        r ∈ [danglingEntry].map (fun x => x.id)) ∧
    (validate_cross_references [danglingEntry]).2.2 ≠ [] := by
  refine ⟨(C8_cross_reference_integrity [danglingEntry]).1, ?_⟩
  intro hnil
  have := (C8_cross_reference_integrity [danglingEntry]).2.2.2.mp hnil danglingEntry
    (List.mem_singleton.mpr rfl) "MISSING" (by decide)
  rcases this with h | h
  · exact absurd h (by decide)
  · exact absurd h (by decide)

/-- Counterexample to C2: on the LOCK duplicate scenario the single
surviving entry has tags core only; the tag language of the first entry
is not retained, so the merge path is not the one taken. -/
theorem C2_counterexample :
    (deduplicate_entries [lockA, lockB]).map (fun e => e.tags) = [["core"]] := by
  decide

/-- C2 amended: on the two-entry LOCK scenario the second entry scores 18
against 5 for the first, so the replace path is taken and the second
entry survives unchanged, with tags core only. -/
theorem C2_amended_replace_path :
    entry_quality_score lockA < entry_quality_score lockB ∧
    deduplicate_entries [lockA, lockB] = [lockB] := by
  decide

/-- Counterexample to C3: an entry matching no rule leaves the Tag Engine
with the single tag misc, one tag short of the claimed floor of 2. -/
theorem C3_counterexample :
    assign_tags_to_entry foobarEntry = ["misc"] ∧
    ¬ 2 ≤ (assign_tags_to_entry foobarEntry).length := by
  decide

theorem length_insertStr (a : String) (l : List String) :
    (insertStr a l).length = l.length + 1 := by
  induction l with
  | nil => rfl
  | cons b bs ih =>
      unfold insertStr
      split
      · simp
      · simp [ih]

theorem length_sortStrings (l : List String) : (sortStrings l).length = l.length := by
  induction l with
  | nil => rfl
  | cons a as ih =>
      unfold sortStrings
      rw [length_insertStr, ih, List.length_cons]

theorem floor_sort_cases (e : DocEntry) (t : List String) :
    2 ≤ (sortStrings (floorTags e t)).length ∨ sortStrings (floorTags e t) = ["misc"] := by
  unfold floorTags
  split
  · next hlt =>
      generalize parentAugment e t = tp
      split
      · next htp =>
          match tp, htp with
          | [], _ =>
              right
              rfl
          | [x], _ =>
              by_cases hx : ([x].contains "misc") = true
              · have hxm : x = "misc" :=
                  (List.mem_singleton.mp (List.elem_iff.mp hx)).symm
                subst hxm
                right
                have : addUnique ["misc"] "misc" = ["misc"] := by
                  unfold addUnique
                  rw [if_pos (by decide)]
                rw [this]
                rfl
              · have : addUnique [x] "misc" = [x, "misc"] := by
                  unfold addUnique
                  rw [if_neg (by simpa using hx)]
                  rfl
                rw [this]
                left
                rw [length_sortStrings]
                simp
          | x :: y :: rest, htp =>
              simp only [List.length_cons] at htp
              omega
      · next htp =>
          left
          rw [length_sortStrings]
          omega
  · next hlt =>
      left
      rw [length_sortStrings]
      omega

/-- C3 amended: after the Tag Engine every entry carries at least 2 tags
or exactly the single tag misc; the floor step adds only the one misc
tag, so an entry with no other contribution ends one short of 2. -/
theorem C3_amended_floor (e : DocEntry) :
    2 ≤ (assign_tags_to_entry e).length ∨ assign_tags_to_entry e = ["misc"] := by
  unfold assign_tags_to_entry
  exact floor_sort_cases e (preFloorTags e)

/-- Counterexample to C4: a structure with six suffixes ends with five
ids starting with its id and a colon in its related set, one more than
the claimed cutoff of four. -/
theorem C4_counterexample :
    prefCount "S" (((build_related_links c4Entries).headD structS).related) = 5 := by
  decide

theorem prefCount_addUnique (sid : String) (l : List String) (a : String) :
    prefCount sid (addUnique l a) ≤ prefCount sid l + 1 := by
  unfold addUnique
  split
  · exact Nat.le_succ _
  · unfold prefCount
    rw [List.filter_append, List.length_append]
    have : (List.filter (fun r => strLeads r (sid ++ ":")) [a]).length ≤ 1 := by
      simp only [List.filter]
      split <;> simp
    omega

theorem suffixLinkStep_noop (sid : String) (acc : List String) (o : DocEntry)
    (h : 5 ≤ prefCount sid acc) : suffixLinkStep sid acc o = acc := by
  unfold suffixLinkStep
  unfold prefCount at h
  split
  · rw [if_neg (by omega)]
  · rfl

theorem suffixLinkStep_bound (sid : String) (acc : List String) (o : DocEntry) :
    prefCount sid (suffixLinkStep sid acc o) ≤ max (prefCount sid acc) 5 := by
  unfold suffixLinkStep
  split
  · split
    · next hcount =>
        have h1 : prefCount sid (addUnique acc o.id) ≤ prefCount sid acc + 1 :=
          prefCount_addUnique sid acc o.id
        have h2 : prefCount sid acc + 1 ≤ 5 := by
          unfold prefCount
          omega
        exact le_trans (le_trans h1 h2) (le_max_right _ _)
    · exact le_max_left _ _
  · exact le_max_left _ _

/-- C4 amended: the structure-to-suffix rule adds nothing once 5 ids
starting with the structure id and a colon are present, and it can never
push the count of such ids beyond 5 (or beyond what was already there):
a structure receives up to 5 of its own suffix ids from this rule, not 4. -/
theorem C4_amended_cutoff_five (entries : List DocEntry) (sid : String) (acc : List String) :
    (5 ≤ prefCount sid acc → List.foldl (suffixLinkStep sid) acc entries = acc) ∧
    prefCount sid (List.foldl (suffixLinkStep sid) acc entries) ≤ max (prefCount sid acc) 5 := by
  induction entries generalizing acc with
  | nil => exact ⟨fun _ => rfl, le_max_left _ _⟩
  | cons o os ih =>
      constructor
      · intro h
        rw [List.foldl_cons, suffixLinkStep_noop sid acc o h]
        exact (ih acc).1 h
      · rw [List.foldl_cons]
        have h1 := (ih (suffixLinkStep sid acc o)).2
        have h2 := suffixLinkStep_bound sid acc o
        have h3 : max (prefCount sid (suffixLinkStep sid acc o)) 5 ≤ max (prefCount sid acc) 5 := by
          have h5 : (5 : Nat) ≤ max (prefCount sid acc) 5 := le_max_right _ _
          exact max_le (le_trans h2 (le_refl _)) h5
        exact le_trans h1 h3

/-- Witness for C4 at an accumulator already holding five suffix ids. -/
theorem C4_witness :
    5 ≤ prefCount "S" c4AccFull ∧
    List.foldl (suffixLinkStep "S") c4AccFull [sfx "F"] = c4AccFull ∧
    prefCount "S" (List.foldl (suffixLinkStep "S") c4AccFull [sfx "F"])
      ≤ max (prefCount "S" c4AccFull) 5 :=
  ⟨by decide,
   (C4_amended_cutoff_five [sfx "F"] "S" c4AccFull).1 (by decide),
   (C4_amended_cutoff_five [sfx "F"] "S" c4AccFull).2⟩

/-- Counterexample to C5: an entry whose parent_structure is its own id
receives its own id in its related list. -/
theorem C5_counterexample :
    ((build_related_links [selfParent]).headD selfParent).id
      ∈ ((build_related_links [selfParent]).headD selfParent).related := by
  decide

theorem notMem_briBase (entries : List DocEntry) (e : DocEntry)
    (h1 : e.id ∉ e.related) (h2 : e.parent_structure ≠ some e.id) :
    e.id ∉ briBase entries e := by
  have hbase : e.id ∉ dedupStrings e.related := by
    intro hm
    unfold dedupStrings unionUnique at hm
    rcases mem_of_foldl_addUnique hm with h | h
    · simp at h
    · exact h1 h
  unfold briBase parentLinkStep
  cases hp : e.parent_structure with
  | none => exact hbase
  | some p =>
      show e.id ∉ (if (p != "") = true then
          (if hasId entries p = true then addUnique (dedupStrings e.related) p
           else dedupStrings e.related)
        else dedupStrings e.related)
      by_cases hq : (p != "") = true
      · by_cases hh : hasId entries p = true
        · rw [if_pos hq, if_pos hh]
          intro hm
          rcases mem_of_mem_addUnique hm with h | h
          · exact hbase h
          · exact h2 (by rw [hp, h])
        · rw [if_pos hq, if_neg hh]
          exact hbase
      · rw [if_neg hq]
        exact hbase

theorem notMem_briSuffixes (entries : List DocEntry) (e : DocEntry)
    (h : e.id ∉ briBase entries e) : e.id ∉ briSuffixes entries e := by
  unfold briSuffixes
  split
  · refine foldl_pres_notMem (suffixLinkStep e.id) e.id entries ?_ _ h
    intro acc b _ hacc
    unfold suffixLinkStep
    split
    · next hguard =>
        simp only [Bool.and_eq_true] at hguard
        split
        · intro hm
          rcases mem_of_mem_addUnique hm with hx | hx
          · exact hacc hx
          · have hne : b.id ≠ e.id := by
              have := hguard.2
              simpa using this
            exact hne hx.symm
        · exact hacc
    · exact hacc
  · exact h

theorem pairs_ne : ∀ p ∈ complementary_pairs, p.1 ≠ p.2 := by decide

theorem notMem_briPairs (entries : List DocEntry) (e : DocEntry)
    (h : e.id ∉ briSuffixes entries e) : e.id ∉ briPairs entries e := by
  unfold briPairs
  refine foldl_pres_notMem (pairStep entries e.id) e.id complementary_pairs ?_ _ h
  intro acc p hp hacc
  unfold pairStep
  split
  · next hg =>
      simp only [Bool.and_eq_true] at hg
      intro hm
      rcases mem_of_mem_addUnique hm with hx | hx
      · exact hacc hx
      · have h1 : e.id = p.1 := eq_of_beq hg.1
        exact (pairs_ne p hp) (h1.symm.trans hx)
  · split
    · next hg =>
        simp only [Bool.and_eq_true] at hg
        intro hm
        rcases mem_of_mem_addUnique hm with hx | hx
        · exact hacc hx
        · have h1 : e.id = p.2 := eq_of_beq hg.1
          exact (pairs_ne p hp) (h1.symm.trans hx).symm
    · exact hacc

theorem notMem_bri (entries : List DocEntry) (e : DocEntry)
    (h : e.id ∉ briPairs entries e) : e.id ∉ build_related_ids entries e := by
  unfold build_related_ids
  cases hd : e.description with
  | none => exact h
  | some d =>
      show e.id ∉ (if (d != "") = true then
          List.foldl (mentionStep e.id (strUpper d)) (briPairs entries e) (entryById entries)
        else briPairs entries e)
      by_cases hq : (d != "") = true
      · rw [if_pos hq]
        refine foldl_pres_notMem (mentionStep e.id (strUpper d)) e.id (entryById entries) ?_ _ h
        intro acc kv _ hacc
        unfold mentionStep
        split
        · exact hacc
        · next hne =>
            show e.id ∉ (if (strContainsSub (strUpper d) (strUpper kv.2.name)
                  && wholeWordMatch (strUpper kv.2.name).data (strUpper d).data) = true
                then addUnique acc kv.1 else acc)
            by_cases hc : (strContainsSub (strUpper d) (strUpper kv.2.name)
                  && wholeWordMatch (strUpper kv.2.name).data (strUpper d).data) = true
            · rw [if_pos hc]
              intro hm
              rcases mem_of_mem_addUnique hm with hx | hx
              · exact hacc hx
              · exact hne (by rw [hx]; exact beq_self_eq_true _)
            · rw [if_neg hc]
              exact hacc
      · rw [if_neg hq]
        exact h

/-- C5 amended: after the cross-referencer every related list has at most
10 elements, for every input collection without proviso; and, provided no
entry arrives with its own id in its related list or with
parent_structure equal to its own id, no related list contains the id of
its own entry.  The parent-linkage rule copies a self-parent verbatim, so
the proviso on the second part cannot be dropped. -/
theorem C5_amended_bounded_no_self (entries : List DocEntry) :
    (∀ f ∈ build_related_links entries, f.related.length ≤ 10) ∧
    ((∀ e ∈ entries, e.id ∉ e.related ∧ e.parent_structure ≠ some e.id) →
      ∀ f ∈ build_related_links entries, f.id ∉ f.related) := by
  constructor
  · intro f hf
    unfold build_related_links at hf
    rcases List.mem_map.mp hf with ⟨e, he, hfe⟩
    subst hfe
    show (List.take 10 (build_related_ids entries e)).length ≤ 10
    rw [List.length_take]
    exact Nat.min_le_left _ _
  · intro hsafe f hf
    unfold build_related_links at hf
    rcases List.mem_map.mp hf with ⟨e, he, hfe⟩
    subst hfe
    show e.id ∉ List.take 10 (build_related_ids entries e)
    intro hm
    exact notMem_bri entries e
      (notMem_briPairs entries e
        (notMem_briSuffixes entries e
          (notMem_briBase entries e (hsafe e he).1 (hsafe e he).2)))
      (List.mem_of_mem_take hm)

/-- Witness for C5: the unconditional bound at the self-parent collection
itself, and the no-self-id conclusion at a collection satisfying the
proviso. -/
theorem C5_witness :
    (∀ f ∈ build_related_links [selfParent], f.related.length ≤ 10) ∧
    (∀ e ∈ [pgPlain, rgPlain], e.id ∉ e.related ∧ e.parent_structure ≠ some e.id) ∧
    (∀ f ∈ build_related_links [pgPlain, rgPlain], f.related.length ≤ 10 ∧ f.id ∉ f.related) :=
  ⟨(C5_amended_bounded_no_self [selfParent]).1,
   by decide,
   fun f hf => ⟨(C5_amended_bounded_no_self [pgPlain, rgPlain]).1 f hf,
     (C5_amended_bounded_no_self [pgPlain, rgPlain]).2 (by decide) f hf⟩⟩

/-- Counterexample to C6: both PROGRADE and RETROGRADE exist, but the
PROGRADE entry arrives with ten related ids already, so the pair link is
the eleventh element of its related-id set and the truncation to 10
drops it. -/
theorem C6_counterexample :
    hasId [pgFull, rgPlain] "PROGRADE" = true ∧
    hasId [pgFull, rgPlain] "RETROGRADE" = true ∧
    "RETROGRADE" ∉ ((build_related_links [pgFull, rgPlain]).headD pgFull).related := by
  decide

theorem pairStep_pres_mem (entries : List DocEntry) (sid x : String) :
    ∀ (acc : List String) (p : String × String), x ∈ acc → x ∈ pairStep entries sid acc p := by
  intro acc p h
  unfold pairStep
  split
  · exact mem_addUnique_of_mem _ _ h
  · split
    · exact mem_addUnique_of_mem _ _ h
    · exact h

theorem mentionStep_pres_mem (sid descU x : String) :
    ∀ (acc : List String) (kv : String × DocEntry),
      x ∈ acc → x ∈ mentionStep sid descU acc kv := by
  intro acc kv h
  unfold mentionStep
  split
  · exact h
  · show x ∈ (if (strContainsSub descU (strUpper kv.2.name)
          && wholeWordMatch (strUpper kv.2.name).data descU.data) = true
        then addUnique acc kv.1 else acc)
    by_cases hc : (strContainsSub descU (strUpper kv.2.name)
        && wholeWordMatch (strUpper kv.2.name).data descU.data) = true
    · rw [if_pos hc]
      exact mem_addUnique_of_mem _ _ h
    · rw [if_neg hc]
      exact h

theorem retro_mem_briPairs (entries : List DocEntry) (e : DocEntry)
    (hpid : e.id = "PROGRADE") (hr : hasId entries "RETROGRADE" = true) :
    "RETROGRADE" ∈ briPairs entries e := by
  unfold briPairs complementary_pairs
  rw [hpid, List.foldl_cons]
  have hcond : (("PROGRADE" == ("PROGRADE", "RETROGRADE").1)
      && hasId entries ("PROGRADE", "RETROGRADE").2) = true := by
    simp [hr]
  have h1 : pairStep entries "PROGRADE" (briSuffixes entries e) ("PROGRADE", "RETROGRADE")
      = addUnique (briSuffixes entries e) "RETROGRADE" := by
    unfold pairStep
    rw [if_pos hcond]
  rw [h1]
  exact foldl_pres_mem (pairStep entries "PROGRADE") "RETROGRADE"
    (fun acc b h => pairStep_pres_mem entries "PROGRADE" "RETROGRADE" acc b h) _ _
    (mem_addUnique_self _ _)

theorem pro_mem_briPairs (entries : List DocEntry) (e : DocEntry)
    (hrid : e.id = "RETROGRADE") (hp : hasId entries "PROGRADE" = true) :
    "PROGRADE" ∈ briPairs entries e := by
  unfold briPairs complementary_pairs
  rw [hrid, List.foldl_cons]
  have hcond1 : ¬ ((("RETROGRADE" == ("PROGRADE", "RETROGRADE").1)
      && hasId entries ("PROGRADE", "RETROGRADE").2) = true) := by
    simp
  have hcond2 : (("RETROGRADE" == ("PROGRADE", "RETROGRADE").2)
      && hasId entries ("PROGRADE", "RETROGRADE").1) = true := by
    simp [hp]
  have h1 : pairStep entries "RETROGRADE" (briSuffixes entries e) ("PROGRADE", "RETROGRADE")
      = addUnique (briSuffixes entries e) "PROGRADE" := by
    unfold pairStep
    rw [if_neg hcond1, if_pos hcond2]
  rw [h1]
  exact foldl_pres_mem (pairStep entries "RETROGRADE") "PROGRADE"
    (fun acc b h => pairStep_pres_mem entries "RETROGRADE" "PROGRADE" acc b h) _ _
    (mem_addUnique_self _ _)

theorem mem_bri_of_mem_briPairs (entries : List DocEntry) (e : DocEntry) {x : String}
    (h : x ∈ briPairs entries e) : x ∈ build_related_ids entries e := by
  unfold build_related_ids
  cases hd : e.description with
  | none => exact h
  | some d =>
      show x ∈ (if (d != "") = true then
          List.foldl (mentionStep e.id (strUpper d)) (briPairs entries e) (entryById entries)
        else briPairs entries e)
      by_cases hq : (d != "") = true
      · rw [if_pos hq]
        exact foldl_pres_mem (mentionStep e.id (strUpper d)) x
          (fun acc kv h' => mentionStep_pres_mem e.id (strUpper d) x acc kv h') _ _ h
      · rw [if_neg hq]
        exact h

/-- C6 amended: when PROGRADE and RETROGRADE both exist, the pair rule
links each to the other; the link survives into the final related list
of an entry whenever the computed related-id set of that entry has at
most 10 elements, so the claimed symmetry holds in the absence of
truncation (the counterexample shows truncation can drop it). -/
theorem C6_amended_pair_symmetry (entries : List DocEntry) (e : DocEntry)
    (he : e ∈ entries)
    (hp : hasId entries "PROGRADE" = true) (hr : hasId entries "RETROGRADE" = true)
    (hlen : (build_related_ids entries e).length ≤ 10) :
    ({ e with related := (build_related_ids entries e).take 10 } : DocEntry)
        ∈ build_related_links entries ∧
    (e.id = "PROGRADE" → "RETROGRADE" ∈ (build_related_ids entries e).take 10) ∧
    (e.id = "RETROGRADE" → "PROGRADE" ∈ (build_related_ids entries e).take 10) := by
  refine ⟨?_, ?_, ?_⟩
  · unfold build_related_links
    exact List.mem_map.mpr ⟨e, he, rfl⟩
  · intro hid
    rw [List.take_of_length_le hlen]
    exact mem_bri_of_mem_briPairs entries e (retro_mem_briPairs entries e hid hr)
  · intro hid
    rw [List.take_of_length_le hlen]
    exact mem_bri_of_mem_briPairs entries e (pro_mem_briPairs entries e hid hp)

/-- Witness for C6 at a two-entry collection with small related sets. -/
theorem C6_witness :
    pgPlain ∈ [pgPlain, rgPlain] ∧
    (build_related_ids [pgPlain, rgPlain] pgPlain).length ≤ 10 ∧
    "RETROGRADE" ∈ (build_related_ids [pgPlain, rgPlain] pgPlain).take 10 :=
  ⟨by decide, by decide,
   (C6_amended_pair_symmetry [pgPlain, rgPlain] pgPlain (by decide) (by decide)
     (by decide) (by decide)).2.1 (by decide)⟩

/-- Counterexample to C9: an entry with the GUI id of the scenario and a
name that is not a key of the table is classified by the first segment
of its name, VESSEL, not by the GUI prefix of its id. -/
theorem C9_counterexample :
    lookupCategory (strUpper guiVesselName.name) = none ∧
    get_category_for_entry guiVesselName = some "Vessel Properties" := by
  decide

/-- C9 amended: an entry of type Structure or Suffix with id
GUI:BUTTON:CLICK, no parent, and a name whose uppercase form is not a
table key and whose first colon-delimited segment is either not a table
key or one mapped to GUI Elements, is classified GUI Elements; a name
whose first segment hits a different table key preempts the id scan. -/
theorem C9_amended_gui_category (e : DocEntry)
    (htype : e.type = DocEntryType.structure_ ∨ e.type = DocEntryType.suffix)
    (hid : e.id = "GUI:BUTTON:CLICK")
    (hparent : e.parent_structure = none)
    (hname : lookupCategory (strUpper e.name) = none)
    (hseg : lookupCategory (firstSeg (strUpper e.name)) = none ∨
        lookupCategory (firstSeg (strUpper e.name)) = some "GUI Elements") :
    get_category_for_entry e = some "GUI Elements" := by
  have hsn : structureNameOf e = e.name := by
    unfold structureNameOf
    rw [hparent]
  have hsc : structure_category e = some "GUI Elements" := by
    unfold structure_category
    rw [hsn, hname]
    rcases hseg with hseg | hseg
    · rw [hseg, hid]
      decide
    · rw [hseg]
  unfold get_category_for_entry
  rcases htype with h | h <;> rw [h] <;> exact hsc

/-- Witness for C9 at the scenario entry whose name equals its id. -/
theorem C9_witness :
    (guiPlain.type = DocEntryType.structure_ ∨ guiPlain.type = DocEntryType.suffix) ∧
    guiPlain.id = "GUI:BUTTON:CLICK" ∧
    guiPlain.parent_structure = none ∧
    lookupCategory (strUpper guiPlain.name) = none ∧
    get_category_for_entry guiPlain = some "GUI Elements" :=
  ⟨Or.inl rfl, rfl, rfl, by decide,
   C9_amended_gui_category guiPlain (Or.inl rfl) rfl rfl (by decide) (Or.inr (by decide))⟩

end KosDoc
